import Mathlib

/-!
Verification of `src/somfy_uai_plus_telnet/telnet_client.py`: the connection
negotiation state machine, frame reassembler and request/response correlation
engine of the `TelnetClient` class.

The shallow embedding below translates the Python code into pure Lean
functions over an explicit session state.  Python strings are `List Char`;
the asyncio event loop is modelled by making each iteration of `_read_loop`
a pure state transition consuming one chunk returned by `reader.read`; the
two asyncio `Event` objects are booleans; the two lifecycle callbacks
(`async_on_connection_ready` / `async_on_disconnected`) are recorded in an
append-only notification log, with the append marking the point at which
the awaited callback has completed; raising an exception is an `Except`
error value that carries the state at the moment of the raise (Python
mutations performed before a raise persist).

The Python `json` standard library is external code; its output for one
line is represented by the `ParsedLine` type: `malformed` stands for
`json.loads` raising, `nonObject` for a line whose JSON value is not an
object (every such line makes the subsequent dict operations raise), and
`object id result error` for a JSON object, where a field is `none` when
the key is absent and `some none` when the key is present with JSON null
(Python `None`).  JSON payload values are the small universe `PyVal`;
the correlation logic never inspects payloads beyond `is not None`.
-/

deriving instance DecidableEq for Except

namespace SomfyTelnet

/-- A JSON payload value as a Python object (excluding `None`, which is
represented by `Option.none` wherever the code tests `is not None`). -/
inductive PyVal
  | int (n : Int)
  | str (s : String)
  | bool (b : Bool)
deriving DecidableEq

/-- The exceptions that can be raised inside `_read_loop` and the send path:
`InvalidUserException` (line 118), `InvalidPasswordException` (line 128), the
generic `Exception("Received Password prompt without User prompt.")`
(line 124), a `json.loads` decode failure (line 147), a `KeyError` from a
missing dict key (lines 150/154), a `TypeError` from treating a non-dict
JSON value as a dict, the generic not-negotiated `Exception` (line 188),
and the `AttributeError` from writing through a `None` writer (line 185). -/
inductive RLExn
  | invalidUser
  | invalidPassword
  | protocolViolation
  | jsonDecode
  | keyError (k : String)
  | typeError
  | notReady
  | attributeError
deriving DecidableEq

/-- `ReaderClosedException(message, exception)` as built at line 165:
carries the fixed message and the optional exception that ended the loop
(`none` on EOF). -/
structure Cause where
  message : String
  cause : Option RLExn
deriving DecidableEq

/-- The record a waiter receives when its pending request completes:
the three fields written by `_set_response` (lines 202--204).  A `none`
is a Python `None`. -/
structure ResponseData where
  response : Option PyVal
  error_response : Option PyVal
  reader_closed_exception : Option Cause
deriving DecidableEq

/-- Outcome of `_async_get_response` after the event fires (lines 210--219):
return the response, raise the error-response exception, or re-raise the
stored reader-closed exception (which is `raise None`, a `TypeError` at
runtime, when that field is also `None`). -/
inductive AwaitOutcome
  | success (v : PyVal)
  | errorResponse (e : PyVal)
  | raiseClosed (c : Option Cause)
deriving DecidableEq

/-- Entries of the lifecycle-callback log: the connection-ready callback
completed (line 173), or the disconnected callback completed with the given
cause (line 177). -/
inductive Notification
  | ready
  | disconnected (c : Option Cause)
deriving DecidableEq

/-- A logical unit recognized by the frame reassembler: one of the three
fixed negotiation tokens, or one complete newline-terminated line of the
operational phase. -/
inductive Msg
  | userPrompt
  | passwordPrompt
  | connected
  | line (l : List Char)
deriving DecidableEq

/-- Result of `json.loads` on one operational-phase line (see the module
comment): parse failure, a non-object JSON value, or an object with the
`id`, `result` and `error` keys extracted (`none` = key absent,
`some none` = key present with JSON null). -/
inductive ParsedLine
  | malformed
  | nonObject
  | object (id : Option PyVal) (result : Option (Option PyVal)) (error : Option (Option PyVal))
deriving DecidableEq

/-- The configured credentials `self._user` / `self._password`. -/
structure Config where
  user : List Char
  password : List Char

/-- The mutable state of one `TelnetClient` instance, plus the loop-local
`output` buffer of `_read_loop` (line 104) and three observation channels:
`writes` (everything passed to `writer.write`), `log` (completed lifecycle
callbacks, in order) and `deliveries` (the completed `ResponseData` records
popped from the table by `_set_response`, which their waiters still hold). -/
structure SessState where
  user_prompt_received : Bool
  password_prompt_received : Bool
  connection_negotiated : Bool
  connection_negotiation_event : Bool
  reader_closed_exception : Option Cause
  next_request_id : Nat
  responses_by_request_id : List Nat
  read_loop_finished : Bool
  reader : Bool
  writer : Bool
  output : List Char
  writes : List (List Char)
  log : List Notification
  deliveries : List (Nat × ResponseData)
deriving DecidableEq

/-- `USER_PROMPT = "User:"` (line 31). -/
def USER_PROMPT : List Char := ['U', 's', 'e', 'r', ':']

/-- `PASSWORD_PROMPT = "Password:"` (line 32). -/
def PASSWORD_PROMPT : List Char := ['P', 'a', 's', 's', 'w', 'o', 'r', 'd', ':']

/-- `CONNECTED_NOTIFICATION = "Connected:\n\x00"` (line 33). -/
def CONNECTED_NOTIFICATION : List Char :=
  ['C', 'o', 'n', 'n', 'e', 'c', 't', 'e', 'd', ':', '\n', '\x00']

/-- The message of the `ReaderClosedException` built at line 165. -/
def closedMessage : String := "Connection to the server was closed."

/-- Helper for `startswith`: recursion structured on the prefix. -/
def startswithAux : List Char → List Char → Bool
  | [], _ => true
  | _ :: _, [] => false
  | p :: ps, c :: cs => (c == p) && startswithAux ps cs

/-- Python `s.startswith(pre)` on character lists. -/
def startswith (l pre : List Char) : Bool := startswithAux pre l

/-- Helper for `splitOn`: prepend a character to the first part. -/
def consHead (x : Char) : List (List Char) → List (List Char)
  | [] => [[x]]
  | p :: ps => (x :: p) :: ps

/-- Python `s.split(sep)` for a one-character separator: always returns
one more part than there are separators, keeping empty parts. -/
def splitOn (sep : Char) : List Char → List (List Char)
  | [] => [[]]
  | c :: cs => if c = sep then [] :: splitOn sep cs else consHead c (splitOn sep cs)

/-- Python `output_lines[len(output_lines) - 1]` on a nonempty list
(the empty list never occurs; it is mapped to `[]`). -/
def lastD : List (List Char) → List Char
  | [] => []
  | [p] => p
  | _ :: q :: ps => lastD (q :: ps)

/-- Python `output_lines[0 : len(output_lines) - 1]` (equal to `[]` when the
list has at most one element, exactly as lines 141--144 compute). -/
def initParts : List (List Char) → List (List Char)
  | [] => []
  | [_] => []
  | p :: q :: ps => p :: initParts (q :: ps)

/-- The fresh state built by `TelnetClient.__init__` (lines 48--62). -/
def initState : SessState where
  user_prompt_received := false
  password_prompt_received := false
  connection_negotiated := false
  connection_negotiation_event := false
  reader_closed_exception := none
  next_request_id := 0
  responses_by_request_id := []
  read_loop_finished := false
  reader := false
  writer := false
  output := []
  writes := []
  log := []
  deliveries := []

/-- The per-session reset performed at the start of `async_connect`
(lines 67--74).  Note it does not touch the writer, the logs, or the
records already delivered to old waiters. -/
def async_connect_reset (st : SessState) : SessState :=
  { st with
    user_prompt_received := false
    password_prompt_received := false
    connection_negotiated := false
    connection_negotiation_event := false
    reader_closed_exception := none
    next_request_id := 0
    responses_by_request_id := []
    read_loop_finished := false }

/-- State after `async_connect` returns successfully (lines 76--83): the
reset above, the reader/writer pair assigned by `open_connection`, and the
read loop started with its local `output` buffer empty (line 104). -/
def async_connect_success (st : SessState) : SessState :=
  { async_connect_reset st with reader := true, writer := true, output := [] }

/-- `async_disconnect` (lines 87--92): close and drop the writer if there is
one, then wait for the read loop to finish.  `none` means the final wait
would block (the read loop has not finished). -/
def async_disconnect (st : SessState) : Option SessState :=
  let st1 := if st.writer then { st with writer := false } else st
  if st1.read_loop_finished then some st1 else none

/-- `async_wait_for_connection_establishment` (lines 94--97): `none` while
the negotiation event is unset (the caller stays blocked); once released,
`some c` where `c ≠ none` means the stored reader-closed exception is
re-raised. -/
def async_wait_for_connection_establishment (st : SessState) : Option (Option Cause) :=
  if st.connection_negotiation_event then some st.reader_closed_exception else none

/-- `_async_send_command` (lines 180--188): raise the not-negotiated
exception unless negotiated or `send_now`; otherwise write `command + "\r"`
(an absent writer makes `None.write` raise `AttributeError`). -/
def async_send_command (command : List Char) (send_now : Bool) (st : SessState) :
    Except (RLExn × SessState) SessState :=
  if st.connection_negotiated || send_now then
    if st.writer then .ok { st with writes := st.writes ++ [command ++ ['\r']] }
    else .error (.attributeError, st)
  else .error (.notReady, st)

/-- `_get_next_request_id` (lines 190--192): pre-increment and return. -/
def get_next_request_id (st : SessState) : Nat × SessState :=
  (st.next_request_id + 1, { st with next_request_id := st.next_request_id + 1 })

/-- `_add_request` (lines 194--195): insert a fresh pending record (an
unset event) under the id; dict assignment to an existing key keeps its
position, which for unit payloads is the identity. -/
def add_request (request_id : Nat) (st : SessState) : SessState :=
  { st with
    responses_by_request_id :=
      if st.responses_by_request_id.contains request_id then st.responses_by_request_id
      else st.responses_by_request_id ++ [request_id] }

/-- `_set_response` (lines 197--205): `pop(request_id, None)`; on a hit the
popped record (still held by its waiter) receives the three fields and its
event is set — modelled by appending the completed record to `deliveries`;
on a miss nothing happens. -/
def set_response (request_id : Nat) (response : Option PyVal)
    (error_response : Option PyVal) (reader_closed_exception : Option Cause)
    (st : SessState) : SessState :=
  if st.responses_by_request_id.contains request_id then
    { st with
      responses_by_request_id := st.responses_by_request_id.erase request_id
      deliveries := st.deliveries ++
        [(request_id,
          { response := response, error_response := error_response,
            reader_closed_exception := reader_closed_exception })] }
  else st

/-- The classification step of `_async_get_response` (lines 210--219) once
the record's event has fired: test `response`, then `error_response`, for
`is not None`, else re-raise the stored reader-closed exception.  (The
table lookup at line 208 happens before the wait and is not part of this
step.) -/
def async_get_response (rd : ResponseData) : AwaitOutcome :=
  match rd.response with
  | some v => .success v
  | none =>
    match rd.error_response with
    | some e => .errorResponse e
    | none => .raiseClosed rd.reader_closed_exception

/-- Dispatch of one operational-phase line (lines 146--155) on the result of
`json.loads`.  A parse failure or a non-object value raises; an object is
routed on `"result" in json_response`; the dict lookups `["id"]`,
`["result"]`, `["error"]` raise `KeyError` when absent (Python evaluates
the `id` argument first).  A non-integer or negative `id` can never equal a
key of the table (whose keys are issued positive naturals), so its pop is
the silent miss. -/
def dispatchLine (pl : ParsedLine) (st : SessState) : Except (RLExn × SessState) SessState :=
  match pl with
  | .malformed => .error (.jsonDecode, st)
  | .nonObject => .error (.typeError, st)
  | .object idv result err =>
    match result with
    | some rv =>
      match idv with
      | none => .error (.keyError "id", st)
      | some iv =>
        match iv with
        | .int n => if n < 0 then .ok st else .ok (set_response n.toNat rv none none st)
        | _ => .ok st
    | none =>
      match idv with
      | none => .error (.keyError "id", st)
      | some iv =>
        match err with
        | none => .error (.keyError "error", st)
        | some ev =>
          match iv with
          | .int n => if n < 0 then .ok st else .ok (set_response n.toNat none ev none st)
          | _ => .ok st

/-- `_async_notify_connection_ready` (lines 172--174): await the consumer
callback (the appended `ready` entry marks its completion), then set the
negotiation event — in that order. -/
def async_notify_connection_ready (st : SessState) : SessState :=
  { st with
    log := st.log ++ [Notification.ready]
    connection_negotiation_event := true }

/-- `_async_notify_disconnected` (lines 176--178): await the disconnected
callback with the stored cause, then set the negotiation event. -/
def async_notify_disconnected (st : SessState) : SessState :=
  { st with
    log := st.log ++ [Notification.disconnected st.reader_closed_exception]
    connection_negotiation_event := true }

/-- The operational-phase line split of one iteration (lines 138--144):
split the buffer on newlines, keep the final part as the new buffer, emit
every earlier part as one complete line. -/
def opSplit (st : SessState) (msgs : List Msg) : SessState × List Msg :=
  let output_lines := splitOn '\n' st.output
  ({ st with output := lastD output_lines },
   msgs ++ (initParts output_lines).map Msg.line)

/-- One iteration of `_read_loop` (lines 112--144) up to and including the
line split, emitting the recognized units (the frame reassembler plus the
negotiation state machine; the JSON dispatch of the emitted lines is
`dispatchMsgs`).  Faithful points: at most one negotiation token is
consumed per iteration; only the `Connected` transition falls through to
the line split of the same iteration (line 137). -/
def reasmStep (cfg : Config) (st : SessState) (read_output : List Char) :
    Except (RLExn × SessState) (SessState × List Msg) :=
  let st1 := { st with output := st.output ++ read_output }
  if st1.connection_negotiated then .ok (opSplit st1 [])
  else if startswith st1.output USER_PROMPT then
    if st1.user_prompt_received then .error (.invalidUser, st1)
    else
      match async_send_command cfg.user true
          { st1 with
            user_prompt_received := true
            output := st1.output.drop USER_PROMPT.length } with
      | .error e => .error e
      | .ok st2 => .ok (st2, [Msg.userPrompt])
  else if startswith st1.output PASSWORD_PROMPT then
    if st1.user_prompt_received = false then .error (.protocolViolation, st1)
    else if st1.password_prompt_received then .error (.invalidPassword, st1)
    else
      match async_send_command cfg.password true
          { st1 with
            password_prompt_received := true
            output := st1.output.drop PASSWORD_PROMPT.length } with
      | .error e => .error e
      | .ok st2 => .ok (st2, [Msg.passwordPrompt])
  else if startswith st1.output CONNECTED_NOTIFICATION then
    let st2 := async_notify_connection_ready
      { st1 with
        connection_negotiated := true
        output := st1.output.drop CONNECTED_NOTIFICATION.length }
    .ok (opSplit st2 [Msg.connected])
  else .ok (st1, [])

/-- Iterated `reasmStep` over successive chunks, concatenating the emitted
units; an exception short-circuits carrying the state at the raise. -/
def reasmRun (cfg : Config) (st : SessState) :
    List (List Char) → Except (RLExn × SessState) (SessState × List Msg)
  | [] => .ok (st, [])
  | c :: cs =>
    match reasmStep cfg st c with
    | .error e => .error e
    | .ok (st1, ms) =>
      match reasmRun cfg st1 cs with
      | .error e => .error e
      | .ok (st2, ms2) => .ok (st2, ms ++ ms2)

/-- JSON dispatch of the units emitted by one iteration (lines 146--155):
each complete line is parsed by `loads` and routed by `dispatchLine`;
negotiation tokens carry no dispatch. -/
def dispatchMsgs (loads : List Char → ParsedLine) (st : SessState) :
    List Msg → Except (RLExn × SessState) SessState
  | [] => .ok st
  | m :: rest =>
    match m with
    | .line l =>
      match dispatchLine (loads l) st with
      | .error e => .error e
      | .ok st2 => dispatchMsgs loads st2 rest
    | _ => dispatchMsgs loads st rest

/-- One full iteration of the `while True` body of `_read_loop`
(lines 106--155): reassemble, then dispatch the complete lines. -/
def stepFull (loads : List Char → ParsedLine) (cfg : Config) (st : SessState)
    (read_output : List Char) : Except (RLExn × SessState) SessState :=
  match reasmStep cfg st read_output with
  | .error e => .error e
  | .ok (st1, msgs) => dispatchMsgs loads st1 msgs

/-- The loop over the successive non-empty results of `reader.read`; the
end of the list is the empty read (EOF, line 108). -/
def runChunks (loads : List Char → ParsedLine) (cfg : Config) (st : SessState) :
    List (List Char) → Except (RLExn × SessState) SessState
  | [] => .ok st
  | c :: cs =>
    match stepFull loads cfg st c with
    | .error e => .error e
    | .ok st1 => runChunks loads cfg st1 cs

/-- The loop body of lines 167--170 over a snapshot of table keys: deliver
the stored reader-closed exception to each through `_set_response`. -/
def drainFrom (ids : List Nat) (s : SessState) : SessState :=
  ids.foldl
    (fun s request_id => set_response request_id none none s.reader_closed_exception s) s

/-- Drain of the correlation table after the loop (lines 167--170): iterate
over `list(self._responses_by_request_id.keys())`, a snapshot taken before
the first pop. -/
def drainPending (st : SessState) : SessState :=
  drainFrom st.responses_by_request_id st

/-- The epilogue of `_read_loop` (lines 162--170): leave the operational
state, signal loop completion, drop the reader, record the termination
cause (`exception = none` on EOF), fire the disconnected notification,
then drain every pending request with that cause. -/
def loopEpilogue (exception : Option RLExn) (st : SessState) : SessState :=
  let st1 :=
    { st with
      connection_negotiated := false
      read_loop_finished := true
      reader := false
      reader_closed_exception := some { message := closedMessage, cause := exception } }
  drainPending (async_notify_disconnected st1)

/-- The whole `_read_loop` on a chunk sequence: run the iterations, then the
epilogue with the exception that broke the loop, if any.  (On the exception
path line 158 also spawns a concurrent best-effort `async_disconnect` of
the write side; that task runs outside the loop and affects none of the
state observed here.) -/
def readLoop (loads : List Char → ParsedLine) (cfg : Config) (st : SessState)
    (chunks : List (List Char)) : SessState :=
  match runChunks loads cfg st chunks with
  | .ok s => loopEpilogue none s
  | .error (e, s) => loopEpilogue (some e) s

/-- The outbound request text `'{{"id": {id}, {request} }}'` of line 225. -/
def formatRequest (request_id : Nat) (request : List Char) : List Char :=
  "\x7b\"id\": ".toList ++ (toString request_id).toList ++ ", ".toList
    ++ request ++ " \x7d".toList

/-- `_async_send_request_and_await_response` (lines 221--229) up to its
suspension point: issue the id, format the message, insert the pending
record, send.  On success the caller is suspended awaiting the outcome for
the returned id (that outcome, once delivered, is classified by
`async_get_response`). -/
def async_send_request_and_await_response (request : List Char) (st : SessState) :
    Except (RLExn × SessState) (SessState × Nat) :=
  let p := get_next_request_id st
  let cmd := formatRequest p.1 request
  let st1 := add_request p.1 p.2
  match async_send_command cmd false st1 with
  | .error e => .error e
  | .ok st2 => .ok (st2, p.1)

/-- Iterated `_get_next_request_id`: the list of the next `n` issued ids. -/
def issueSeq : Nat → SessState → List Nat × SessState
  | 0, st => ([], st)
  | n + 1, st =>
    let p := get_next_request_id st
    let q := issueSeq n p.2
    (p.1 :: q.1, q.2)

/-- Observation of a fallible state: the state carried by either outcome. -/
def obsState : Except (RLExn × SessState) SessState → SessState
  | .ok s => s
  | .error (_, s) => s

/-- Observation of a fallible reassembly result: the carried state. -/
def obsPair : Except (RLExn × SessState) (SessState × List Msg) → SessState
  | .ok (s, _) => s
  | .error (_, s) => s

/-- Observation of a fallible reassembly result: the emitted units. -/
def obsMsgs : Except (RLExn × SessState) (SessState × List Msg) → List Msg
  | .ok (_, ms) => ms
  | .error _ => []

/-- Whether a log entry is the connection-ready notification. -/
def isReadyNotification : Notification → Bool
  | .ready => true
  | _ => false

/-- Concrete credentials used by witness instantiations. -/
def sampleCfg : Config where
  user := ['u']
  password := ['p']

/-- A freshly connected session (witness fixture). -/
def sampleStart : SessState := async_connect_success initState

/-- An operational session with no pending request (witness fixture). -/
def sampleOperational : SessState :=
  { sampleStart with connection_negotiated := true }

/-- An operational session with requests 1 and 2 pending (witness fixture). -/
def samplePending : SessState :=
  { sampleOperational with responses_by_request_id := [1, 2], next_request_id := 2 }

/-- A freshly connected session that has already seen the user prompt
(witness fixture). -/
def sampleSecondUser : SessState :=
  { sampleStart with user_prompt_received := true }

/-- A session whose read loop has fully unwound (witness fixture). -/
def sampleFinished : SessState :=
  { sampleStart with read_loop_finished := true }

/-- Invariant of the running loop: the number of fired ready notifications
matches the negotiation flag, and the negotiation event can only have been
set after the negotiated transition (hence after the ready callback). -/
def ReadyInv (st : SessState) : Prop :=
  st.log.countP isReadyNotification = (if st.connection_negotiated then 1 else 0)
  ∧ (st.connection_negotiation_event = true → st.connection_negotiated = true)


/-!
### Helper lemmas

Facts about the list operations backing the embedding, frame lemmas for the
state operations, and the invariants used by the claim theorems.
-/

theorem splitOn_ne_nil (sep : Char) (l : List Char) : splitOn sep l ≠ [] := by
  induction l with
  | nil => simp [splitOn]
  | cons c cs ih =>
    simp only [splitOn]
    split
    · simp
    · cases h : splitOn sep cs with
      | nil => exact absurd h ih
      | cons p ps => simp [consHead]

theorem lastD_append_right (xs : List (List Char)) {ys : List (List Char)}
    (h : ys ≠ []) : lastD (xs ++ ys) = lastD ys := by
  induction xs with
  | nil => rfl
  | cons x xs ih =>
    cases hxy : xs ++ ys with
    | nil => exact absurd (List.append_eq_nil.mp hxy).2 h
    | cons q qs => rw [List.cons_append, hxy, lastD, ← hxy, ih]

theorem initParts_append_right (xs : List (List Char)) {ys : List (List Char)}
    (h : ys ≠ []) : initParts (xs ++ ys) = xs ++ initParts ys := by
  induction xs with
  | nil => rfl
  | cons x xs ih =>
    cases hxy : xs ++ ys with
    | nil => exact absurd (List.append_eq_nil.mp hxy).2 h
    | cons q qs => rw [List.cons_append, hxy, initParts, ← hxy, ih, List.cons_append]

theorem splitOn_append (sep : Char) (l b : List Char) :
    splitOn sep (l ++ b) =
      initParts (splitOn sep l) ++ splitOn sep (lastD (splitOn sep l) ++ b) := by
  induction l with
  | nil => simp [splitOn, initParts, lastD]
  | cons x xs ih =>
    by_cases hx : x = sep
    · rw [List.cons_append]
      simp only [splitOn, if_pos hx]
      rw [ih]
      cases h : splitOn sep xs with
      | nil => exact absurd h (splitOn_ne_nil sep xs)
      | cons p ps => rw [initParts, lastD, List.cons_append]
    · rw [List.cons_append]
      simp only [splitOn, if_neg hx]
      rw [ih]
      cases h : splitOn sep xs with
      | nil => exact absurd h (splitOn_ne_nil sep xs)
      | cons p ps =>
        cases ps with
        | nil =>
          simp only [consHead, initParts, lastD, List.nil_append]
          rw [List.cons_append]
          simp [splitOn, if_neg hx, consHead]
        | cons q qs =>
          simp only [consHead, initParts, lastD, List.cons_append]

@[simp]
theorem set_response_log (i : Nat) (r e : Option PyVal) (c : Option Cause)
    (st : SessState) : (set_response i r e c st).log = st.log := by
  unfold set_response; split <;> rfl

@[simp]
theorem set_response_negotiated (i : Nat) (r e : Option PyVal) (c : Option Cause)
    (st : SessState) :
    (set_response i r e c st).connection_negotiated = st.connection_negotiated := by
  unfold set_response; split <;> rfl

@[simp]
theorem set_response_event (i : Nat) (r e : Option PyVal) (c : Option Cause)
    (st : SessState) :
    (set_response i r e c st).connection_negotiation_event
      = st.connection_negotiation_event := by
  unfold set_response; split <;> rfl

@[simp]
theorem set_response_finished (i : Nat) (r e : Option PyVal) (c : Option Cause)
    (st : SessState) :
    (set_response i r e c st).read_loop_finished = st.read_loop_finished := by
  unfold set_response; split <;> rfl

@[simp]
theorem set_response_closed (i : Nat) (r e : Option PyVal) (c : Option Cause)
    (st : SessState) :
    (set_response i r e c st).reader_closed_exception = st.reader_closed_exception := by
  unfold set_response; split <;> rfl

@[simp]
theorem set_response_writer (i : Nat) (r e : Option PyVal) (c : Option Cause)
    (st : SessState) : (set_response i r e c st).writer = st.writer := by
  unfold set_response; split <;> rfl

@[simp]
theorem set_response_writes (i : Nat) (r e : Option PyVal) (c : Option Cause)
    (st : SessState) : (set_response i r e c st).writes = st.writes := by
  unfold set_response; split <;> rfl

theorem set_response_miss (i : Nat) (r e : Option PyVal) (c : Option Cause)
    {st : SessState} (h : st.responses_by_request_id.contains i = false) :
    set_response i r e c st = st := by
  unfold set_response; rw [h]; rfl

theorem drainFrom_frame (ids : List Nat) : ∀ s : SessState,
    (drainFrom ids s).log = s.log
    ∧ (drainFrom ids s).read_loop_finished = s.read_loop_finished
    ∧ (drainFrom ids s).reader_closed_exception = s.reader_closed_exception
    ∧ (drainFrom ids s).connection_negotiated = s.connection_negotiated
    ∧ (drainFrom ids s).connection_negotiation_event = s.connection_negotiation_event := by
  induction ids with
  | nil => intro s; exact ⟨rfl, rfl, rfl, rfl, rfl⟩
  | cons i rest ih =>
    intro s
    have h := ih (set_response i none none s.reader_closed_exception s)
    simpa [drainFrom, List.foldl_cons] using h

theorem drainFrom_spec (ids : List Nat) : ∀ s : SessState,
    s.responses_by_request_id = ids →
    (drainFrom ids s).responses_by_request_id = []
    ∧ (drainFrom ids s).deliveries = s.deliveries ++ ids.map
        (fun i => (i, ⟨none, none, s.reader_closed_exception⟩)) := by
  induction ids with
  | nil => intro s h; simpa [drainFrom] using h
  | cons i rest ih =>
    intro s h
    have hc : s.responses_by_request_id.contains i = true := by rw [h]; simp
    have hstep : set_response i none none s.reader_closed_exception s =
        { s with
          responses_by_request_id := s.responses_by_request_id.erase i
          deliveries := s.deliveries ++
            [(i, ⟨none, none, s.reader_closed_exception⟩)] } := by
      unfold set_response; rw [hc]; rfl
    have herase : s.responses_by_request_id.erase i = rest := by
      rw [h]; exact List.erase_cons_head i rest
    have h2 := ih { s with
        responses_by_request_id := s.responses_by_request_id.erase i
        deliveries := s.deliveries ++ [(i, ⟨none, none, s.reader_closed_exception⟩)] }
      (by simpa using herase)
    simp only [drainFrom, List.foldl_cons] at h2 ⊢
    rw [hstep]
    simpa [List.append_assoc] using h2

theorem loopEpilogue_finished (e : Option RLExn) (st : SessState) :
    (loopEpilogue e st).read_loop_finished = true := by
  unfold loopEpilogue drainPending
  have h := drainFrom_frame
    (async_notify_disconnected
      { st with
        connection_negotiated := false
        read_loop_finished := true
        reader := false
        reader_closed_exception :=
          some { message := closedMessage, cause := e } }).responses_by_request_id
  exact (h _).2.1

theorem loopEpilogue_closed (e : Option RLExn) (st : SessState) :
    (loopEpilogue e st).reader_closed_exception
      = some { message := closedMessage, cause := e } := by
  unfold loopEpilogue drainPending
  have h := drainFrom_frame
    (async_notify_disconnected
      { st with
        connection_negotiated := false
        read_loop_finished := true
        reader := false
        reader_closed_exception :=
          some { message := closedMessage, cause := e } }).responses_by_request_id
  exact (h _).2.2.1

theorem loopEpilogue_log (e : Option RLExn) (st : SessState) :
    (loopEpilogue e st).log = st.log ++
      [Notification.disconnected (some { message := closedMessage, cause := e })] := by
  unfold loopEpilogue drainPending
  have h := drainFrom_frame
    (async_notify_disconnected
      { st with
        connection_negotiated := false
        read_loop_finished := true
        reader := false
        reader_closed_exception :=
          some { message := closedMessage, cause := e } }).responses_by_request_id
  exact (h _).1

theorem startswithAux_self : ∀ pre rest : List Char, startswithAux pre (pre ++ rest) = true := by
  intro pre
  induction pre with
  | nil => intro rest; rfl
  | cons p ps ih => intro rest; simp [startswithAux, ih]

theorem startswith_append_self (pre rest : List Char) :
    startswith (pre ++ rest) pre = true :=
  startswithAux_self pre rest

theorem password_not_user {l : List Char}
    (h : startswith l PASSWORD_PROMPT = true) : startswith l USER_PROMPT = false := by
  cases l with
  | nil => simp [startswith, startswithAux, PASSWORD_PROMPT] at h
  | cons c cs =>
    have hc : c = 'P' := by
      simp only [startswith, PASSWORD_PROMPT, startswithAux, Bool.and_eq_true,
        beq_iff_eq] at h
      exact h.1
    subst hc
    simp [startswith, USER_PROMPT, startswithAux]

theorem reasmStep_op (cfg : Config) {st : SessState}
    (h : st.connection_negotiated = true) (c : List Char) :
    reasmStep cfg st c = .ok (opSplit { st with output := st.output ++ c } []) := by
  unfold reasmStep
  simp only [h]
  rfl

theorem splitLines_comp (buf a b : List Char) :
    initParts (splitOn '\n' (buf ++ (a ++ b))) =
      initParts (splitOn '\n' (buf ++ a)) ++
      initParts (splitOn '\n' (lastD (splitOn '\n' (buf ++ a)) ++ b))
    ∧ lastD (splitOn '\n' (buf ++ (a ++ b))) =
      lastD (splitOn '\n' (lastD (splitOn '\n' (buf ++ a)) ++ b)) := by
  constructor
  · rw [← List.append_assoc, splitOn_append '\n' (buf ++ a) b,
      initParts_append_right _ (splitOn_ne_nil _ _)]
  · rw [← List.append_assoc, splitOn_append '\n' (buf ++ a) b,
      lastD_append_right _ (splitOn_ne_nil _ _)]

theorem reasmStep_comp (cfg : Config) {st : SessState}
    (h : st.connection_negotiated = true) (a b : List Char) :
    reasmStep cfg st (a ++ b) =
      match reasmStep cfg st a with
      | .error e => .error e
      | .ok (s1, m1) =>
        match reasmStep cfg s1 b with
        | .error e => .error e
        | .ok (s2, m2) => .ok (s2, m1 ++ m2) := by
  have h1 : ({ st with output := lastD (splitOn '\n' (st.output ++ a)) }
      : SessState).connection_negotiated = true := h
  rw [reasmStep_op cfg h a, reasmStep_op cfg h (a ++ b)]
  simp only [opSplit, List.nil_append]
  rw [reasmStep_op cfg h1 b]
  simp only [opSplit, List.nil_append, List.map_append]
  rw [(splitLines_comp st.output a b).1, (splitLines_comp st.output a b).2,
    List.map_append]

theorem reasmRun_op (cfg : Config) {st : SessState}
    (h : st.connection_negotiated = true) (c : List Char) (cs : List (List Char)) :
    reasmRun cfg st (c :: cs) = reasmStep cfg st (c ++ cs.flatten) := by
  induction cs generalizing st c with
  | nil =>
    show reasmRun cfg st [c] = _
    rw [List.flatten_nil, List.append_nil]
    unfold reasmRun
    rw [reasmStep_op cfg h c]
    unfold reasmRun
    simp [opSplit]
  | cons d ds ih =>
    show reasmRun cfg st (c :: d :: ds) = _
    have hflat : (d :: ds).flatten = d ++ ds.flatten := List.flatten_cons
    rw [hflat, reasmStep_comp cfg h c (d ++ ds.flatten)]
    unfold reasmRun
    rw [reasmStep_op cfg h c]
    simp only [opSplit, List.nil_append]
    have h1 : ({ st with output := lastD (splitOn '\n' (st.output ++ c)) }
        : SessState).connection_negotiated = true := h
    rw [ih h1]

theorem loopEpilogue_table (e : Option RLExn) (st : SessState) :
    (loopEpilogue e st).responses_by_request_id = []
    ∧ (loopEpilogue e st).deliveries = st.deliveries ++ st.responses_by_request_id.map
        (fun i => (i, ⟨none, none, some { message := closedMessage, cause := e }⟩)) := by
  unfold loopEpilogue drainPending
  exact drainFrom_spec _ _ rfl

theorem readyInv_frame {st st' : SessState} (h1 : st'.log = st.log)
    (h2 : st'.connection_negotiated = st.connection_negotiated)
    (h3 : st'.connection_negotiation_event = st.connection_negotiation_event)
    (h : ReadyInv st) : ReadyInv st' := by
  obtain ⟨a, b⟩ := h
  constructor
  · rw [h1, h2]; exact a
  · rw [h3, h2]; exact b

theorem readyInv_set_response (i : Nat) (r e : Option PyVal) (c : Option Cause)
    {st : SessState} (h : ReadyInv st) : ReadyInv (set_response i r e c st) :=
  readyInv_frame (set_response_log i r e c st) (set_response_negotiated i r e c st)
    (set_response_event i r e c st) h

theorem readyInv_dispatchLine (pl : ParsedLine) (st : SessState) (h : ReadyInv st) :
    ReadyInv (obsState (dispatchLine pl st)) := by
  unfold dispatchLine
  rcases pl with _ | _ | ⟨idv, r, e⟩
  · exact h
  · exact h
  · rcases r with _ | rv
    · rcases idv with _ | iv
      · exact h
      · rcases e with _ | ev
        · exact h
        · rcases iv with n | s | b
          · by_cases hn : n < 0
            · simp only [if_pos hn]; exact h
            · simp only [if_neg hn]
              exact readyInv_set_response _ _ _ _ h
          · exact h
          · exact h
    · rcases idv with _ | iv
      · exact h
      · rcases iv with n | s | b
        · by_cases hn : n < 0
          · simp only [if_pos hn]; exact h
          · simp only [if_neg hn]; exact readyInv_set_response _ _ _ _ h
        · exact h
        · exact h

theorem readyInv_dispatchMsgs (ms : List Msg) : ∀ (loads : List Char → ParsedLine)
    (st : SessState), ReadyInv st → ReadyInv (obsState (dispatchMsgs loads st ms)) := by
  induction ms with
  | nil => intro loads st h; exact h
  | cons m rest ih =>
    intro loads st h
    cases m with
    | line l =>
      cases hd : dispatchLine (loads l) st with
      | error e =>
        have hl := readyInv_dispatchLine (loads l) st h
        rw [hd] at hl
        simpa only [dispatchMsgs, hd] using hl
      | ok st2 =>
        have hl := readyInv_dispatchLine (loads l) st h
        rw [hd] at hl
        simpa only [dispatchMsgs, hd] using ih loads st2 hl
    | userPrompt => exact ih loads st h
    | passwordPrompt => exact ih loads st h
    | connected => exact ih loads st h

theorem readyInv_send (cmd : List Char) (b : Bool) (st : SessState) (h : ReadyInv st) :
    ReadyInv (obsState (async_send_command cmd b st)) := by
  unfold async_send_command
  split
  · split
    · exact readyInv_frame rfl rfl rfl h
    · exact h
  · exact h

theorem readyInv_reasmStep (cfg : Config) (st : SessState) (c : List Char)
    (h : ReadyInv st) : ReadyInv (obsPair (reasmStep cfg st c)) := by
  have h1 : ReadyInv ({ st with output := st.output ++ c }) :=
    readyInv_frame rfl rfl rfl h
  simp only [reasmStep]
  split
  · exact readyInv_frame rfl rfl rfl h1
  · split
    · split
      · exact h1
      · split
        next e heq =>
          have hs := readyInv_send cfg.user true
            { st with
              user_prompt_received := true
              output := List.drop USER_PROMPT.length (st.output ++ c) }
            (readyInv_frame rfl rfl rfl h)
          rw [heq] at hs
          exact hs
        next st2 heq =>
          have hs := readyInv_send cfg.user true
            { st with
              user_prompt_received := true
              output := List.drop USER_PROMPT.length (st.output ++ c) }
            (readyInv_frame rfl rfl rfl h)
          rw [heq] at hs
          exact hs
    · split
      · split
        · exact h1
        · split
          · exact h1
          · split
            next e heq =>
              have hs := readyInv_send cfg.password true
                { st with
                  password_prompt_received := true
                  output := List.drop PASSWORD_PROMPT.length (st.output ++ c) }
                (readyInv_frame rfl rfl rfl h)
              rw [heq] at hs
              exact hs
            next st2 heq =>
              have hs := readyInv_send cfg.password true
                { st with
                  password_prompt_received := true
                  output := List.drop PASSWORD_PROMPT.length (st.output ++ c) }
                (readyInv_frame rfl rfl rfl h)
              rw [heq] at hs
              exact hs
      · split
        next hneg hu hp hconn =>
          refine readyInv_frame rfl rfl rfl ?_
          have hneg' : st.connection_negotiated = false := by simpa using hneg
          constructor
          · show (st.log ++ [Notification.ready]).countP isReadyNotification = 1
            rw [List.countP_append, h.1, hneg']
            simp [isReadyNotification]
          · intro
            rfl
        next hneg hu hp hconn => exact h1

theorem readyInv_stepFull (loads : List Char → ParsedLine) (cfg : Config)
    (st : SessState) (c : List Char) (h : ReadyInv st) :
    ReadyInv (obsState (stepFull loads cfg st c)) := by
  unfold stepFull
  split
  next e heq =>
    have hin := readyInv_reasmStep cfg st c h
    rw [heq] at hin
    exact hin
  next st1 msgs heq =>
    have hin := readyInv_reasmStep cfg st c h
    rw [heq] at hin
    exact readyInv_dispatchMsgs msgs loads st1 hin

theorem readyInv_runChunks (cs : List (List Char)) : ∀ (loads : List Char → ParsedLine)
    (cfg : Config) (st : SessState), ReadyInv st →
    ReadyInv (obsState (runChunks loads cfg st cs)) := by
  induction cs with
  | nil => intro loads cfg st h; exact h
  | cons c cs ih =>
    intro loads cfg st h
    unfold runChunks
    split
    next e heq =>
      have hs := readyInv_stepFull loads cfg st c h
      rw [heq] at hs
      exact hs
    next st1 heq =>
      have hs := readyInv_stepFull loads cfg st c h
      rw [heq] at hs
      exact ih loads cfg st1 hs

/-!
### Banner-chunk reductions
-/

theorem startswith_connected_user (rest : List Char) :
    startswith (CONNECTED_NOTIFICATION ++ rest) USER_PROMPT = false := rfl

theorem startswith_connected_password (rest : List Char) :
    startswith (CONNECTED_NOTIFICATION ++ rest) PASSWORD_PROMPT = false := rfl

theorem startswith_connected_self (rest : List Char) :
    startswith (CONNECTED_NOTIFICATION ++ rest) CONNECTED_NOTIFICATION = true := rfl

theorem drop_connected (rest : List Char) :
    List.drop CONNECTED_NOTIFICATION.length (CONNECTED_NOTIFICATION ++ rest) = rest := rfl

/-!
### Claim theorems
-/

/-- C1: termination of the session (the `_read_loop` epilogue) delivers the
termination cause to every request pending at that moment, leaves the
correlation table empty, and any later `_set_response` (resolve or reject)
for an identifier no longer in the table is a silent no-op. -/
theorem terminate_drains_table_and_late_resolve_is_noop (e : Option RLExn)
    (st : SessState) :
    (loopEpilogue e st).responses_by_request_id = []
    ∧ (loopEpilogue e st).deliveries = st.deliveries ++ st.responses_by_request_id.map
        (fun i => (i, ⟨none, none, some { message := closedMessage, cause := e }⟩))
    ∧ ∀ (i : Nat) (r er : Option PyVal) (c : Option Cause),
        set_response i r er c (loopEpilogue e st) = loopEpilogue e st := by
  obtain ⟨h1, h2⟩ := loopEpilogue_table e st
  refine ⟨h1, h2, ?_⟩
  intro i r er c
  apply set_response_miss
  rw [h1]
  rfl

/-- C2 counterexample: an operational-phase message that matches neither the
result nor the error shape (here a JSON object with an `id` but no `result`
and no `error` key) IS an error for the session: dispatch raises `KeyError`
and the read loop, fed one such line, terminates recording that exception
as the session's closing cause — contradicting "not an error for the
session ... the read loop continues". -/
theorem dispatch_shapeless_message_kills_session :
    dispatchLine (ParsedLine.object (some (PyVal.int 7)) none none) sampleOperational
      = .error (.keyError "error", sampleOperational)
    ∧ (readLoop (fun _ => ParsedLine.object (some (PyVal.int 7)) none none) sampleCfg
        sampleOperational [['x', '\n']]).reader_closed_exception
      = some { message := closedMessage, cause := some (RLExn.keyError "error") } :=
  ⟨by decide, by decide⟩

/-- C2 amended: a well-formed message (result shape, or error shape) whose
identifier has no pending entry is a harmless miss — dispatch returns
successfully with the state unchanged, so the read loop continues; but a
message matching neither shape (unparseable JSON, a missing `id` key, or
missing both `result` and `error`) raises an exception in the read loop,
which terminates the session. -/
theorem dispatch_miss_is_noop_but_shapeless_raises (st : SessState) (i : Nat)
    (h : st.responses_by_request_id.contains i = false) :
    (∀ (rv : Option PyVal) (ev : Option (Option PyVal)),
      dispatchLine (ParsedLine.object (some (PyVal.int (i : Int))) (some rv) ev) st
        = .ok st)
    ∧ (∀ ev : Option PyVal,
      dispatchLine (ParsedLine.object (some (PyVal.int (i : Int))) none (some ev)) st
        = .ok st)
    ∧ dispatchLine ParsedLine.malformed st = .error (.jsonDecode, st)
    ∧ dispatchLine (ParsedLine.object (some (PyVal.int (i : Int))) none none) st
        = .error (.keyError "error", st)
    ∧ (∀ (r er : Option (Option PyVal)),
      dispatchLine (ParsedLine.object none r er) st = .error (.keyError "id", st)) := by
  refine ⟨?_, ?_, rfl, rfl, ?_⟩
  · intro rv ev
    simp only [dispatchLine]
    rw [if_neg (by omega : ¬ ((i : Int) < 0)), Int.toNat_natCast,
      set_response_miss i rv none none h]
  · intro ev
    simp only [dispatchLine]
    rw [if_neg (by omega : ¬ ((i : Int) < 0)), Int.toNat_natCast,
      set_response_miss i none ev none h]
  · intro r er
    cases r <;> rfl

/-- C2 witness: concrete instantiation of the amended claim at an
operational session with no pending request and id 7. -/
theorem dispatch_miss_is_noop_witness :
    dispatchLine (ParsedLine.object (some (PyVal.int 7)) (some (some (PyVal.int 5))) none)
        sampleOperational = .ok sampleOperational
    ∧ dispatchLine (ParsedLine.object (some (PyVal.int 7)) none
        (some (some (PyVal.str "busy")))) sampleOperational = .ok sampleOperational :=
  ⟨(dispatch_miss_is_noop_but_shapeless_raises sampleOperational 7 (by decide)).1
      (some (PyVal.int 5)) none,
   (dispatch_miss_is_noop_but_shapeless_raises sampleOperational 7 (by decide)).2.1
      (some (PyVal.str "busy"))⟩

/-- C3 counterexample: the same byte stream, split differently across read
chunks, yields different recognized message sequences: `"User:Password:"`
in one chunk recognizes only the user prompt (the negotiation block runs at
most once per read iteration), while split at the token boundary both
prompts are recognized. -/
theorem chunk_boundary_invariance_fails :
    obsMsgs (reasmRun sampleCfg sampleStart [USER_PROMPT ++ PASSWORD_PROMPT])
      = [Msg.userPrompt]
    ∧ obsMsgs (reasmRun sampleCfg sampleStart [USER_PROMPT, PASSWORD_PROMPT])
      = [Msg.userPrompt, Msg.passwordPrompt]
    ∧ obsMsgs (reasmRun sampleCfg sampleStart [USER_PROMPT ++ PASSWORD_PROMPT])
      ≠ obsMsgs (reasmRun sampleCfg sampleStart [USER_PROMPT, PASSWORD_PROMPT]) :=
  ⟨by decide, by decide, by decide⟩

/-- C3 amended: chunk-boundary invariance holds for the operational phase —
feeding any chunk sequence to a negotiated session produces exactly the
state and line sequence of feeding their concatenation in one chunk — and a
single chunk carrying the connected banner immediately followed by further
content is fully processed in the same read iteration: the banner is
recognized and the remainder is line-split without waiting for the next
read.  (During negotiation, invariance fails: see the counterexample.) -/
theorem operational_phase_chunk_invariance (cfg : Config) :
    (∀ st : SessState, st.connection_negotiated = true →
      ∀ (c : List Char) (cs : List (List Char)),
        reasmRun cfg st (c :: cs) = reasmStep cfg st (c ++ cs.flatten))
    ∧ (∀ (st : SessState) (restChunk : List Char), st.connection_negotiated = false →
        st.output = [] →
        reasmStep cfg st (CONNECTED_NOTIFICATION ++ restChunk) =
          .ok ({ async_notify_connection_ready
                  { st with connection_negotiated := true, output := restChunk } with
                 output := lastD (splitOn '\n' restChunk) },
               Msg.connected :: (initParts (splitOn '\n' restChunk)).map Msg.line)) := by
  constructor
  · intro st h c cs
    exact reasmRun_op cfg h c cs
  · intro st restChunk hneg hout
    simp [reasmStep, hneg, hout, startswith_connected_user,
      startswith_connected_password, startswith_connected_self, drop_connected,
      opSplit, async_notify_connection_ready]

/-- C3 witness: the amended invariance applied to a concrete operational
session and the banner case applied to a fresh session with one chunk
`CONNECTED_NOTIFICATION ++ "x"`. -/
theorem operational_phase_chunk_invariance_witness :
    reasmRun sampleCfg sampleOperational [['a', '\n'], ['b']]
      = reasmStep sampleCfg sampleOperational (['a', '\n'] ++ [['b']].flatten)
    ∧ reasmStep sampleCfg sampleStart (CONNECTED_NOTIFICATION ++ ['x'])
      = .ok ({ async_notify_connection_ready
                { sampleStart with connection_negotiated := true, output := ['x'] } with
               output := lastD (splitOn '\n' ['x']) },
             Msg.connected :: (initParts (splitOn '\n' ['x'])).map Msg.line) :=
  ⟨(operational_phase_chunk_invariance sampleCfg).1 sampleOperational rfl ['a', '\n'] [['b']],
   (operational_phase_chunk_invariance sampleCfg).2 sampleStart ['x'] rfl rfl⟩

/-- C4: with negotiation incomplete, a second user prompt raises
`InvalidUserException`, a password prompt without a prior user prompt
raises the protocol-violation exception, and a second password prompt
raises `InvalidPasswordException`; in each case the read loop terminates
the session, recording that exception as the closing cause. -/
theorem handshake_violation_conditions (loads : List Char → ParsedLine)
    (cfg : Config) (st : SessState) (c : List Char) (rest : List (List Char))
    (hneg : st.connection_negotiated = false) :
    (startswith (st.output ++ c) USER_PROMPT = true → st.user_prompt_received = true →
      stepFull loads cfg st c = .error (.invalidUser, { st with output := st.output ++ c })
      ∧ (readLoop loads cfg st (c :: rest)).read_loop_finished = true
      ∧ (readLoop loads cfg st (c :: rest)).reader_closed_exception
          = some { message := closedMessage, cause := some RLExn.invalidUser })
    ∧ (startswith (st.output ++ c) PASSWORD_PROMPT = true →
        st.user_prompt_received = false →
      stepFull loads cfg st c
          = .error (.protocolViolation, { st with output := st.output ++ c })
      ∧ (readLoop loads cfg st (c :: rest)).read_loop_finished = true
      ∧ (readLoop loads cfg st (c :: rest)).reader_closed_exception
          = some { message := closedMessage, cause := some RLExn.protocolViolation })
    ∧ (startswith (st.output ++ c) PASSWORD_PROMPT = true →
        st.user_prompt_received = true → st.password_prompt_received = true →
      stepFull loads cfg st c
          = .error (.invalidPassword, { st with output := st.output ++ c })
      ∧ (readLoop loads cfg st (c :: rest)).read_loop_finished = true
      ∧ (readLoop loads cfg st (c :: rest)).reader_closed_exception
          = some { message := closedMessage, cause := some RLExn.invalidPassword }) := by
  refine ⟨?_, ?_, ?_⟩
  · intro hU hu
    have hsf : stepFull loads cfg st c
        = .error (.invalidUser, { st with output := st.output ++ c }) := by
      have hre : reasmStep cfg st c
          = .error (.invalidUser, { st with output := st.output ++ c }) := by
        simp [reasmStep, hneg, hU, hu]
      simp [stepFull, hre]
    have hrl : readLoop loads cfg st (c :: rest)
        = loopEpilogue (some RLExn.invalidUser) { st with output := st.output ++ c } := by
      simp [readLoop, runChunks, hsf]
    exact ⟨hsf, by rw [hrl]; exact loopEpilogue_finished _ _,
      by rw [hrl]; exact loopEpilogue_closed _ _⟩
  · intro hP hu
    have hUf := password_not_user hP
    have hsf : stepFull loads cfg st c
        = .error (.protocolViolation, { st with output := st.output ++ c }) := by
      have hre : reasmStep cfg st c
          = .error (.protocolViolation, { st with output := st.output ++ c }) := by
        simp [reasmStep, hneg, hUf, hP, hu]
      simp [stepFull, hre]
    have hrl : readLoop loads cfg st (c :: rest)
        = loopEpilogue (some RLExn.protocolViolation)
            { st with output := st.output ++ c } := by
      simp [readLoop, runChunks, hsf]
    exact ⟨hsf, by rw [hrl]; exact loopEpilogue_finished _ _,
      by rw [hrl]; exact loopEpilogue_closed _ _⟩
  · intro hP hu hp
    have hUf := password_not_user hP
    have hsf : stepFull loads cfg st c
        = .error (.invalidPassword, { st with output := st.output ++ c }) := by
      have hre : reasmStep cfg st c
          = .error (.invalidPassword, { st with output := st.output ++ c }) := by
        simp [reasmStep, hneg, hUf, hP, hu, hp]
      simp [stepFull, hre]
    have hrl : readLoop loads cfg st (c :: rest)
        = loopEpilogue (some RLExn.invalidPassword)
            { st with output := st.output ++ c } := by
      simp [readLoop, runChunks, hsf]
    exact ⟨hsf, by rw [hrl]; exact loopEpilogue_finished _ _,
      by rw [hrl]; exact loopEpilogue_closed _ _⟩

/-- C4 witness: a session that already saw the user prompt receives the
user prompt again in one chunk: `InvalidUserException` is raised and the
session terminates with that cause. -/
theorem handshake_violation_conditions_witness :
    stepFull (fun _ => ParsedLine.malformed) sampleCfg sampleSecondUser USER_PROMPT
      = .error (.invalidUser,
          { sampleSecondUser with output := sampleSecondUser.output ++ USER_PROMPT })
    ∧ (readLoop (fun _ => ParsedLine.malformed) sampleCfg sampleSecondUser
        [USER_PROMPT]).read_loop_finished = true
    ∧ (readLoop (fun _ => ParsedLine.malformed) sampleCfg sampleSecondUser
        [USER_PROMPT]).reader_closed_exception
      = some { message := closedMessage, cause := some RLExn.invalidUser } :=
  (handshake_violation_conditions (fun _ => ParsedLine.malformed) sampleCfg
    sampleSecondUser USER_PROMPT [] rfl).1 (by decide) rfl

/-- C5: over a whole session started by a successful `async_connect`, the
connection-ready notification fires at most once (exactly once when
negotiation succeeds, since only the banner transition appends it), and
whenever the negotiation event that releases
`async_wait_for_connection_establishment` is observable set, the ready
callback has already completed — the callback is awaited before the event
is set. -/
theorem ready_fires_once_and_before_release (loads : List Char → ParsedLine)
    (cfg : Config) (chunks : List (List Char)) :
    (readLoop loads cfg (async_connect_success initState) chunks).log.countP
        isReadyNotification ≤ 1
    ∧ ((obsState (runChunks loads cfg (async_connect_success initState)
          chunks)).connection_negotiation_event = true →
        Notification.ready ∈ (obsState (runChunks loads cfg
          (async_connect_success initState) chunks)).log) := by
  have hstart : ReadyInv (async_connect_success initState) := by
    constructor
    · rfl
    · intro h
      exact absurd h (by decide)
  have hrun := readyInv_runChunks chunks loads cfg _ hstart
  constructor
  · unfold readLoop
    split
    next s heq =>
      rw [heq] at hrun
      have hrun1 : ReadyInv s := hrun
      have hl := loopEpilogue_log none s
      rw [hl, List.countP_append]
      have h1 : s.log.countP isReadyNotification ≤ 1 := by
        rw [hrun1.1]
        split <;> simp
      have h2 : List.countP isReadyNotification
          [Notification.disconnected (some { message := closedMessage, cause := none })]
          = 0 := by
        simp [isReadyNotification]
      omega
    next e s heq =>
      rw [heq] at hrun
      have hrun1 : ReadyInv s := hrun
      have hl := loopEpilogue_log (some e) s
      rw [hl, List.countP_append]
      have h1 : s.log.countP isReadyNotification ≤ 1 := by
        rw [hrun1.1]
        split <;> simp
      have h2 : List.countP isReadyNotification
          [Notification.disconnected
            (some { message := closedMessage, cause := some e })] = 0 := by
        simp [isReadyNotification]
      omega
  · intro hev
    have hneg := hrun.2 hev
    have hcount := hrun.1
    rw [hneg] at hcount
    have hpos : 0 < (obsState (runChunks loads cfg (async_connect_success initState)
        chunks)).log.countP isReadyNotification := by
      rw [hcount]
      simp
    obtain ⟨a, ha, hpa⟩ := List.countP_pos_iff.mp hpos
    cases a with
    | ready => exact ha
    | disconnected cc => simp [isReadyNotification] at hpa

/-- C5 witness: a run whose single chunk is the connected banner fires the
ready notification once, and the released event implies the ready callback
is in the log. -/
theorem ready_fires_once_witness :
    (readLoop (fun _ => ParsedLine.malformed) sampleCfg
        (async_connect_success initState) [CONNECTED_NOTIFICATION]).log.countP
        isReadyNotification ≤ 1
    ∧ Notification.ready ∈ (obsState (runChunks (fun _ => ParsedLine.malformed)
        sampleCfg (async_connect_success initState) [CONNECTED_NOTIFICATION])).log :=
  ⟨(ready_fires_once_and_before_release (fun _ => ParsedLine.malformed) sampleCfg
      [CONNECTED_NOTIFICATION]).1,
   (ready_fires_once_and_before_release (fun _ => ParsedLine.malformed) sampleCfg
      [CONNECTED_NOTIFICATION]).2 (by decide)⟩

/-- C6: `_get_next_request_id` pre-increments the counter, so within one
session the issued identifiers are the strictly increasing sequence
`counter+1, counter+2, ...`; from the state reset by `async_connect` the
first `n` issued identifiers are exactly `1, 2, ..., n` — in particular the
first identifier after a reconnect is again 1. -/
theorem request_ids_increase_from_one (st : SessState) (n : Nat) :
    (issueSeq n st).1 = List.range' (st.next_request_id + 1) n
    ∧ (issueSeq n (async_connect_reset st)).1 = List.range' 1 n := by
  have hgen : ∀ (m : Nat) (s : SessState),
      (issueSeq m s).1 = List.range' (s.next_request_id + 1) m := by
    intro m
    induction m with
    | zero => intro s; rfl
    | succ k ih =>
      intro s
      show (get_next_request_id s).1 :: (issueSeq k (get_next_request_id s).2).1 = _
      rw [ih (get_next_request_id s).2, List.range'_succ]
      rfl
  exact ⟨hgen n st, hgen n (async_connect_reset st)⟩

/-- C7: with negotiation incomplete, `_async_send_command` without the
`send_now` flag (every ordinary request) raises the not-negotiated
exception before touching the writer, leaving the state — in particular the
write channel — untouched; the two credential transmissions pass
`send_now=True` and do write. -/
theorem request_before_ready_fails_without_write (st : SessState)
    (command : List Char) :
    (st.connection_negotiated = false →
      async_send_command command false st = .error (.notReady, st))
    ∧ (st.writer = true →
      async_send_command command true st
        = .ok { st with writes := st.writes ++ [command ++ ['\r']] }) := by
  constructor
  · intro h
    simp [async_send_command, h]
  · intro h
    simp [async_send_command, h]

/-- C7 witness: concrete instantiation on a freshly connected,
not-yet-negotiated session. -/
theorem request_before_ready_fails_witness :
    async_send_command ['a'] false sampleStart = .error (.notReady, sampleStart)
    ∧ async_send_command ['a'] true sampleStart
      = .ok { sampleStart with writes := sampleStart.writes ++ [['a'] ++ ['\r']] } :=
  ⟨(request_before_ready_fails_without_write sampleStart ['a']).1 rfl,
   (request_before_ready_fails_without_write sampleStart ['a']).2 rfl⟩

/-- C8: once the read loop has unwound, `async_disconnect` returns (the
final wait does not block), a second call reaches the same final state (the
second call finds no writer and is a no-op), and neither call touches the
notification log — the disconnected notification, fired by the read loop,
is not fired again. -/
theorem disconnect_twice_idempotent (st : SessState)
    (h : st.read_loop_finished = true) :
    async_disconnect st = some { st with writer := false }
    ∧ async_disconnect { st with writer := false } = some { st with writer := false }
    ∧ ({ st with writer := false } : SessState).log = st.log := by
  refine ⟨?_, ?_, rfl⟩
  · simp only [async_disconnect]
    by_cases hw : st.writer = true
    · simp [hw, h]
    · have hst : ({ st with writer := false } : SessState) = st := by
        have hw2 : st.writer = false := by simpa using hw
        cases st
        simp_all
      rw [if_neg hw, if_pos h, hst]
  · simp only [async_disconnect]
    simp [h]

/-- C8 witness: the idempotence facts on a session whose read loop has
finished. -/
theorem disconnect_twice_idempotent_witness :
    async_disconnect sampleFinished = some { sampleFinished with writer := false }
    ∧ async_disconnect { sampleFinished with writer := false }
      = some { sampleFinished with writer := false }
    ∧ ({ sampleFinished with writer := false } : SessState).log = sampleFinished.log :=
  disconnect_twice_idempotent sampleFinished rfl

/-- C9: `_async_get_response` classifies a completed record by testing
`response`, then `error_response`, for non-nullness, falling through to
re-raising the stored closed exception; consequently a request resolved as
a success with a JSON-null payload (dispatch stores Python `None` in
`response`) is never returned as a success — the waiter falls through to
`raise None`. -/
theorem null_success_payload_is_not_returned (st : SessState) (i : Nat)
    (h : st.responses_by_request_id.contains i = true) :
    dispatchLine (ParsedLine.object (some (PyVal.int (i : Int))) (some none) none) st
      = .ok { st with
          responses_by_request_id := st.responses_by_request_id.erase i
          deliveries := st.deliveries ++ [(i, ⟨none, none, none⟩)] }
    ∧ (∀ v : PyVal, async_get_response ⟨none, none, none⟩ ≠ AwaitOutcome.success v)
    ∧ async_get_response ⟨none, none, none⟩ = .raiseClosed none
    ∧ (∀ (rd : ResponseData) (v : PyVal), rd.response = some v →
        async_get_response rd = .success v)
    ∧ (∀ (rd : ResponseData) (e : PyVal), rd.response = none →
        rd.error_response = some e → async_get_response rd = .errorResponse e) := by
  refine ⟨?_, ?_, rfl, ?_, ?_⟩
  · simp only [dispatchLine]
    rw [if_neg (by omega : ¬ ((i : Int) < 0)), Int.toNat_natCast]
    unfold set_response
    rw [h]
    simp
  · intro v
    simp [async_get_response]
  · intro rd v hv
    simp [async_get_response, hv]
  · intro rd e h1 h2
    simp [async_get_response, h1, h2]

/-- C9 witness: dispatching `{"id": 1, "result": null}` to a session with
request 1 pending removes the entry and delivers an all-`None` record whose
await outcome is `raise None`, not a success. -/
theorem null_success_payload_witness :
    dispatchLine (ParsedLine.object (some (PyVal.int 1)) (some none) none) samplePending
      = .ok { samplePending with
          responses_by_request_id := samplePending.responses_by_request_id.erase 1
          deliveries := samplePending.deliveries ++ [(1, ⟨none, none, none⟩)] }
    ∧ async_get_response ⟨none, none, none⟩ ≠ AwaitOutcome.success (PyVal.int 5) :=
  ⟨(null_success_payload_is_not_returned samplePending 1 (by decide)).1,
   (null_success_payload_is_not_returned samplePending 1 (by decide)).2.1 (PyVal.int 5)⟩

/-- C10: when `_async_send_request_and_await_response` fails the readiness
check of `_async_send_command`, the identifier has already been consumed
(the counter ends one higher) and the freshly inserted pending entry is
still in the correlation table carried by the raised state: nothing is
rolled back. -/
theorem failed_send_keeps_counter_and_table_entry (st : SessState)
    (request : List Char) (h : st.connection_negotiated = false) :
    async_send_request_and_await_response request st
      = .error (.notReady, add_request (st.next_request_id + 1) (get_next_request_id st).2)
    ∧ (add_request (st.next_request_id + 1) (get_next_request_id st).2).next_request_id
      = st.next_request_id + 1
    ∧ (add_request (st.next_request_id + 1)
        (get_next_request_id st).2).responses_by_request_id.contains
        (st.next_request_id + 1) = true := by
  refine ⟨?_, rfl, ?_⟩
  · simp [async_send_request_and_await_response, async_send_command, add_request,
      get_next_request_id, h]
  · simp only [add_request, get_next_request_id]
    split
    next h2 => simpa using h2
    next h2 => simp

/-- C10 witness: the rollback-free failure on a fresh not-negotiated
session: the raised state has counter 1 and id 1 pending. -/
theorem failed_send_keeps_state_witness :
    async_send_request_and_await_response ['r'] sampleStart
      = .error (.notReady,
          add_request (sampleStart.next_request_id + 1) (get_next_request_id sampleStart).2)
    ∧ (add_request (sampleStart.next_request_id + 1)
        (get_next_request_id sampleStart).2).next_request_id
      = sampleStart.next_request_id + 1
    ∧ (add_request (sampleStart.next_request_id + 1)
        (get_next_request_id sampleStart).2).responses_by_request_id.contains
        (sampleStart.next_request_id + 1) = true :=
  failed_send_keeps_counter_and_table_entry sampleStart ['r'] rfl

end SomfyTelnet
